import Mathlib

/-
Verification development for src/IPlug/IGraphics/IControls.h: UI widget classes
(knob, button/switch, vector switch, bitmap text) of an audio-plugin GUI toolkit.
Class state is embedded as Lean structures; methods become explicit state-passing
functions; drawing calls on the graphics context become a trace of drawing
operations; C doubles/floats are idealized as exact rationals (ℚ); the C
double-to-int conversion is truncation toward zero; C fmod with a zero second
argument (a domain error producing NaN) is modelled as Option.none.
-/

/-- Modelled from the spec: the sentinel parameter index meaning "no parameter
bound" (declared in IControl.h, outside this excerpt). Per the spec glossary a
control is "a UI widget bound to zero or one automatable parameter". -/
def kNoParameter : Int := -1

/-- Layout direction of a control (EDirection of the toolkit headers). -/
inductive EDirection
  | kVertical
  | kHorizontal
deriving DecidableEq

/-- A color (IColor) as its channel values. -/
structure IColor where
  A : Nat
  R : Nat
  G : Nat
  B : Nat
deriving DecidableEq

/-- Modelled from the spec: IRECT and its geometry helpers (SubRectHorizontal,
SubRectVertical, GetPadded) are declared in the IGraphics headers outside this
excerpt; the spec says controls "delegate hit-testing geometry ... to an
underlying graphics context", so rectangles are kept symbolic: a base rectangle
or a geometry operation applied to one. -/
inductive RectExpr
  | rect (left top right bottom : ℚ)
  | subRectHorizontal (r : RectExpr) (numSlices : Nat) (sliceIdx : Int)
  | subRectVertical (r : RectExpr) (numSlices : Nat) (sliceIdx : Int)
  | getPadded (r : RectExpr) (padding : ℚ)
deriving DecidableEq

/-- A blend mode record (IBlend / EBlendType), kept abstract as a code. -/
structure IBlend where
  blendType : Int
deriving DecidableEq

/-- Text style (IText), kept abstract as a size code. -/
structure IText where
  size : Int
deriving DecidableEq

/-- A bitmap handle (IBitmap), kept abstract as an identifier. -/
structure IBitmap where
  id : Int
deriving DecidableEq

/-- Mouse modifier flags (IMouseMod). -/
structure IMouseMod where
  L : Bool
  R : Bool
deriving DecidableEq

/-- Modelled from the spec: the IControl base class (IControl.h, outside this
excerpt). Per the spec a control is a widget bound to zero or one automatable
parameter; it carries a bounds rectangle, a normalized value, a dirty flag, an
optional action callback and a blend. `mActionFunc` records only whether an
action callback was supplied (the callback body is host code). -/
structure IControl where
  mParamIdx : Int
  mRECT : RectExpr
  mValue : ℚ
  mDirty : Bool
  mActionFunc : Bool
  mBlend : IBlend
deriving DecidableEq

/-- Modelled from the spec: the IControl constructor stores the bounds rectangle
and the (at most one) parameter index; the value starts at 0, the control is not
yet dirty, and the blend defaults to kBlendNone (code 0). -/
def IControl.construct (rect : RectExpr) (paramIdx : Int) (actionFunc : Bool) : IControl :=
  { mParamIdx := paramIdx, mRECT := rect, mValue := 0, mDirty := false,
    mActionFunc := actionFunc, mBlend := { blendType := 0 } }

/-- IKnobControlBase (IControls.h lines 18-37): parent for knobs. -/
structure IKnobControlBase extends IControl where
  mDirection : EDirection
  mGearing : ℚ
deriving DecidableEq

/-- IKnobControlBase constructor (lines 21-26): IControl(plug, rect, paramIdx)
with no action callback, then stores direction and gearing. -/
def IKnobControlBase.construct (rect : RectExpr) (paramIdx : Int)
    (direction : EDirection) (gearing : ℚ) : IKnobControlBase :=
  { IControl.construct rect paramIdx false with
    mDirection := direction, mGearing := gearing }

/-- SetGearing (line 30). -/
def IKnobControlBase.SetGearing (c : IKnobControlBase) (gearing : ℚ) : IKnobControlBase :=
  { c with mGearing := gearing }

/-- Modelled from the spec: the body of IKnobControlBase::OnMouseDrag is only
declared in this header (line 31), defined outside the excerpt. The spec says
these widgets bind mouse input to parameter state, so the drag updates only the
control's value (the mouse delta along the control's direction, scaled by the
gearing) and marks the control dirty. -/
def IKnobControlBase.OnMouseDrag (c : IKnobControlBase) (x y dX dY : ℚ)
    (m : IMouseMod) : IKnobControlBase :=
  { c with
    mValue := c.mValue + (if c.mDirection = EDirection.kVertical then dY else dX) * c.mGearing,
    mDirty := true }

/-- Modelled from the spec: the body of IKnobControlBase::OnMouseWheel is only
declared in this header (line 32), defined outside the excerpt; as with the
drag it updates only the control's value and dirty flag. -/
def IKnobControlBase.OnMouseWheel (c : IKnobControlBase) (x y : ℚ) (m : IMouseMod)
    (d : ℚ) : IKnobControlBase :=
  { c with mValue := c.mValue + d * c.mGearing, mDirty := true }

/-- IButtonControlBase (IControls.h lines 40-76): parent for buttons/switches. -/
structure IButtonControlBase extends IControl where
  mNumStates : Nat
deriving DecidableEq

/-- IButtonControlBase constructor (lines 43-53). `plugGetRange` models
mPlug.GetParam(paramIdx)->GetRange(), the host parameter's range (host plugin
object outside the excerpt, modelled from the spec as the parameter's integer
range): if paramIdx > -1 then mNumStates = GetRange() + 1 else mNumStates =
numStates. -/
def IButtonControlBase.construct (plugGetRange : Int → Nat) (rect : RectExpr)
    (paramIdx : Int) (actionFunc : Bool) (numStates : Nat) : IButtonControlBase :=
  { IControl.construct rect paramIdx actionFunc with
    mNumStates := if paramIdx > -1 then plugGetRange paramIdx + 1 else numStates }

/-- Truncation toward zero of a rational: the C double-to-int conversion. -/
def rtrunc (q : ℚ) : Int := Int.tdiv q.num q.den

/-- C fmod(x, y) over exact rationals: x - trunc(x/y)*y; `none` models the
domain error (NaN result) of fmod when y = 0. -/
def fmod (x y : ℚ) : Option ℚ :=
  if y = 0 then none else some (x - (rtrunc (x / y) : ℚ) * y)

/-- The per-click step of IButtonControlBase::OnMouseDown (line 63):
`const float step = 1.f/float(mNumStates) - 1.;`. -/
def buttonMouseDownStep (numStates : Nat) : ℚ := 1 / (numStates : ℚ) - 1

/-- The value update of IButtonControlBase::OnMouseDown (lines 59-66): a
two-state button toggles (`mValue = !mValue`); otherwise mValue += step and
then `mValue = fmod(1., mValue)` (arguments in exactly the source's order). -/
def OnMouseDownValue (numStates : Nat) (v : ℚ) : Option ℚ :=
  if numStates = 2 then some (if v = 0 then 1 else 0)
  else fmod 1 (v + buttonMouseDownStep numStates)

/-- IButtonControlBase::OnMouseDown (lines 57-72): updates the value, then
calls the action callback when one was supplied, then SetDirty(). Returns the
updated control (`none` when the value update was a fmod domain error, i.e. the
stored double became NaN) together with whether the action callback was
invoked. -/
def IButtonControlBase.OnMouseDown (c : IButtonControlBase) (x y : ℚ)
    (m : IMouseMod) : Option IButtonControlBase × Bool :=
  ((OnMouseDownValue c.mNumStates c.mValue).map
      (fun v => { c with mValue := v, mDirty := true }),
   c.mActionFunc)

/-- A drawing operation issued on the graphics context. -/
inductive DrawOp
  | fillRect (color : IColor) (r : RectExpr)
  | drawBitmapedText (bitmap : IBitmap) (r : RectExpr) (text : IText)
      (blend : IBlend) (str : String) (vCenter : Bool) (multiLine : Bool)
      (charWidth charHeight charOffset : Int)
deriving DecidableEq

/-- IVSwitchControl (IControls.h lines 81-120): a vector switch; click to
cycle through states. -/
structure IVSwitchControl extends IButtonControlBase where
  mStep : ℚ
  mFGColor : IColor
  mBGColor : IColor
  mDirection : EDirection
deriving DecidableEq

/-- The expression assigned to mStep in the IVSwitchControl constructor
(line 92): `mStep = 1.f/float(mNumStates) - 1.;`. -/
def switchCtorStep (numStates : Nat) : ℚ := 1 / (numStates : ℚ) - 1

/-- IVSwitchControl constructor (lines 84-93): builds the IButtonControlBase,
stores the colors and direction, and sets mStep from mNumStates. -/
def IVSwitchControl.construct (plugGetRange : Int → Nat) (rect : RectExpr)
    (paramIdx : Int) (actionFunc : Bool) (fgColor bgColor : IColor)
    (numStates : Nat) (dir : EDirection) : IVSwitchControl :=
  let base := IButtonControlBase.construct plugGetRange rect paramIdx actionFunc numStates
  { toIButtonControlBase := base
    mStep := switchCtorStep base.mNumStates
    mFGColor := fgColor
    mBGColor := bgColor
    mDirection := dir }

/-- The state index computed at the top of IVSwitchControl::Draw (line 99):
`const int state = mValue / mStep;` (double-to-int truncation). -/
def IVSwitchControl.drawStateIdx (c : IVSwitchControl) : Int :=
  rtrunc (c.mValue / c.mStep)

/-- IVSwitchControl::Draw (lines 97-113): fills mRECT with the background
color, selects the state sub-rectangle (horizontal slice if mDirection ==
kHorizontal, vertical slice if mDirection == kVertical — the two source `if`s
are exhaustive over EDirection), pads it by -10 and fills it with the
foreground color. Draw assigns no member, so the control is returned
unchanged alongside the trace of drawing operations. -/
def IVSwitchControl.Draw (c : IVSwitchControl) : IVSwitchControl × List DrawOp :=
  let state := c.drawStateIdx
  let handle : RectExpr :=
    if c.mDirection = EDirection.kHorizontal then
      RectExpr.subRectHorizontal c.mRECT c.mNumStates state
    else
      RectExpr.subRectVertical c.mRECT c.mNumStates state
  (c, [DrawOp.fillRect c.mBGColor c.mRECT,
       DrawOp.fillRect c.mFGColor (RectExpr.getPadded handle (-10))])

/-- Modelled from the spec: ITextControl (IControl.h, outside this excerpt), a
control displaying a string with a text style; it binds no parameter. -/
structure ITextControl extends IControl where
  mText : IText
  mStr : String
deriving DecidableEq

/-- Modelled from the spec: the ITextControl constructor stores the rectangle,
text style and string; no parameter is bound. -/
def ITextControl.construct (rect : RectExpr) (text : IText) (str : String) : ITextControl :=
  { IControl.construct rect kNoParameter false with mText := text, mStr := str }

/-- IBTextControl (IControls.h lines 140-166): monospace bitmap-font text. -/
structure IBTextControl extends ITextControl where
  mCharWidth : Int
  mCharHeight : Int
  mCharOffset : Int
  mMultiLine : Bool
  mVCentre : Bool
  mTextBitmap : IBitmap
deriving DecidableEq

/-- IBTextControl constructor (lines 143-153): forwards rect/text/str to
ITextControl, stores the char metrics, flags and bitmap, then mStr.Set(str).
The `bl` argument is accepted but never forwarded anywhere, exactly as in the
source. -/
def IBTextControl.construct (rect : RectExpr) (textBitmap : IBitmap)
    (text : IText) (str : String) (charWidth charHeight charOffset : Int)
    (multiLine vCenter : Bool) (bl : IBlend) : IBTextControl :=
  { toITextControl := { ITextControl.construct rect text str with mStr := str }
    mCharWidth := charWidth
    mCharHeight := charHeight
    mCharOffset := charOffset
    mMultiLine := multiLine
    mVCentre := vCenter
    mTextBitmap := textBitmap }

/-- IBTextControl::Draw (lines 155-158): a single DrawBitmapedText call with
the stored bitmap, rectangle, text, blend, string, flags and char metrics, in
the source's argument order. No member is assigned. -/
def IBTextControl.Draw (c : IBTextControl) : IBTextControl × List DrawOp :=
  (c, [DrawOp.drawBitmapedText c.mTextBitmap c.mRECT c.mText c.mBlend c.mStr
        c.mVCentre c.mMultiLine c.mCharWidth c.mCharHeight c.mCharOffset])

/-- A concrete mouse modifier for instantiations. -/
def exMouseMod : IMouseMod := { L := true, R := false }

/-- A concrete two-state button (paramIdx = kNoParameter, numStates = 2) with
an action callback, at value 0. -/
def exButton2 : IButtonControlBase :=
  IButtonControlBase.construct (fun _ => 0) (RectExpr.rect 0 0 50 20) kNoParameter true 2

/-- A concrete four-state button at value 3/4 (its last state). -/
def exButton4 : IButtonControlBase :=
  { IButtonControlBase.construct (fun _ => 0) (RectExpr.rect 0 0 50 20) kNoParameter false 4 with
    mValue := 3/4 }

/-- A concrete two-state vector switch at value 1 (the "on" state). -/
def exSwitchOn : IVSwitchControl :=
  { IVSwitchControl.construct (fun _ => 0) (RectExpr.rect 0 0 100 50) kNoParameter false
      { A := 255, R := 0, G := 0, B := 0 } { A := 255, R := 255, G := 255, B := 255 }
      2 EDirection.kVertical with
    mValue := 1 }

/-- A concrete knob. -/
def exKnob : IKnobControlBase :=
  IKnobControlBase.construct (RectExpr.rect 0 0 40 40) 7 EDirection.kVertical (3/2)

/-- A concrete horizontal three-state vector switch. -/
def exSwitchH : IVSwitchControl :=
  IVSwitchControl.construct (fun _ => 2) (RectExpr.rect 0 0 90 30) 5 true
    { A := 255, R := 10, G := 20, B := 30 } { A := 255, R := 1, G := 2, B := 3 }
    7 EDirection.kHorizontal

/-- A concrete bitmap-text control. -/
def exBText : IBTextControl :=
  IBTextControl.construct (RectExpr.rect 0 0 120 24) { id := 9 } { size := 14 }
    "hello" 6 12 0 false true { blendType := 3 }

/-- The concrete two-state button after one toggle: value 1, marked dirty. -/
def exButton2Tog : IButtonControlBase :=
  { exButton2 with mValue := 1, mDirty := true }

/-- C1: an IButtonControlBase constructed with a bound parameter (paramIdx > -1)
has mNumStates equal to the host parameter's GetRange() plus 1; constructed with
paramIdx = kNoParameter it has mNumStates equal to the numStates argument. -/
theorem C1_button_numStates (plugGetRange : Int → Nat) (rect : RectExpr)
    (paramIdx : Int) (actionFunc : Bool) (numStates : Nat) :
    (paramIdx > -1 →
      (IButtonControlBase.construct plugGetRange rect paramIdx actionFunc numStates).mNumStates
        = plugGetRange paramIdx + 1) ∧
    (paramIdx = kNoParameter →
      (IButtonControlBase.construct plugGetRange rect paramIdx actionFunc numStates).mNumStates
        = numStates) := by
  constructor
  · intro h
    simp [IButtonControlBase.construct, h]
  · intro h
    subst h
    simp [IButtonControlBase.construct, kNoParameter]

/-- Witness for C1: paramIdx = 3 bound to a parameter with GetRange() = 4 gives
mNumStates = 5; paramIdx = kNoParameter with numStates = 6 gives mNumStates = 6. -/
theorem C1_button_numStates_witness :
    ((3 : Int) > -1 ∧
      (IButtonControlBase.construct (fun _ => 4) (RectExpr.rect 0 0 1 1) 3 false 2).mNumStates = 5) ∧
    (kNoParameter = kNoParameter ∧
      (IButtonControlBase.construct (fun _ => 4) (RectExpr.rect 0 0 1 1) kNoParameter false 6).mNumStates = 6) :=
  ⟨⟨by decide, (C1_button_numStates (fun _ => 4) (RectExpr.rect 0 0 1 1) 3 false 2).1 (by decide)⟩,
   ⟨rfl, (C1_button_numStates (fun _ => 4) (RectExpr.rect 0 0 1 1) kNoParameter false 6).2 rfl⟩⟩

/-- C9: the constructor's assert(mNumStates > 1) holds for every construction
with paramIdx = kNoParameter and numStates ≥ 2, and for every construction
with paramIdx > -1 whose bound parameter's GetRange() is ≥ 1. -/
theorem C9_ctor_assert_holds (plugGetRange : Int → Nat) (rect : RectExpr)
    (paramIdx : Int) (actionFunc : Bool) (numStates : Nat)
    (h : (paramIdx = kNoParameter ∧ 2 ≤ numStates) ∨
         (paramIdx > -1 ∧ 1 ≤ plugGetRange paramIdx)) :
    1 < (IButtonControlBase.construct plugGetRange rect paramIdx actionFunc numStates).mNumStates := by
  rcases h with ⟨h1, h2⟩ | ⟨h1, h2⟩
  · subst h1
    simp [IButtonControlBase.construct, kNoParameter]
    omega
  · simp [IButtonControlBase.construct, h1]
    omega

/-- Witness for C9: the default construction (kNoParameter, numStates = 2)
satisfies the assertion. -/
theorem C9_ctor_assert_holds_witness :
    (kNoParameter = kNoParameter ∧ 2 ≤ 2) ∧
    1 < (IButtonControlBase.construct (fun _ => 0) (RectExpr.rect 0 0 50 20)
          kNoParameter true 2).mNumStates :=
  ⟨⟨rfl, by decide⟩,
   C9_ctor_assert_holds (fun _ => 0) (RectExpr.rect 0 0 50 20) kNoParameter true 2
     (Or.inl ⟨rfl, by decide⟩)⟩

/-- C2 (code bug): OnMouseDown does not advance a multi-state button to the
next state and can leave [0,1]. At mNumStates = 4, mValue = 3/4 it computes
fmod(1., 0.) — a domain error (NaN) — so the updated value is no normalized
state at all; at mNumStates = 3, mValue = 0 it produces 1/3 rather than the
next state: the step 1.f/float(mNumStates) - 1. is negative and the fmod
arguments are swapped. -/
theorem C2_mouseDown_wrap_bug :
    (exButton4.OnMouseDown 0 0 exMouseMod).1 = none ∧
    OnMouseDownValue 3 0 = some (1/3) := by
  have h1 : Int.tdiv 3 2 = 1 := by decide
  have h2 : Int.tdiv (-3) 2 = -1 := by decide
  constructor
  · norm_num [exButton4, IButtonControlBase.construct, IControl.construct, kNoParameter,
      IButtonControlBase.OnMouseDown, OnMouseDownValue, buttonMouseDownStep, fmod]
  · norm_num [OnMouseDownValue, buttonMouseDownStep, fmod, rtrunc, h1, h2]

/-- C3 (code bug): a two-state IVSwitchControl at mValue = 1 (inside the
normalized range [0,1]) computes state = mValue / mStep = -2 in Draw, outside
[0, mNumStates - 1], because mStep = 1.f/float(mNumStates) - 1. is negative;
the selected sub-rectangle slice index is therefore not one of the control's
mNumStates cells. -/
theorem C3_draw_state_out_of_range :
    exSwitchOn.drawStateIdx = -2 ∧ ¬(0 ≤ exSwitchOn.drawStateIdx) := by
  have h2 : Int.tdiv (-2) 1 = -2 := by decide
  have h : exSwitchOn.drawStateIdx = -2 := by
    norm_num [exSwitchOn, IVSwitchControl.construct, IButtonControlBase.construct,
      IControl.construct, kNoParameter, switchCtorStep, IVSwitchControl.drawStateIdx,
      rtrunc, h2]
  refine ⟨h, ?_⟩
  rw [h]
  decide

/-- Helper: the value and state count of a two-state button after OnMouseDown. -/
theorem IButtonControlBase.toggle_value_eq (b : IButtonControlBase) (x y : ℚ)
    (m : IMouseMod) (b' : IButtonControlBase) (h2 : b.mNumStates = 2)
    (hb : (b.OnMouseDown x y m).1 = some b') :
    b'.mValue = (if b.mValue = 0 then 1 else 0) ∧ b'.mNumStates = 2 := by
  simp only [IButtonControlBase.OnMouseDown, OnMouseDownValue, h2, if_true,
    Option.map_some', Option.some.injEq, reduceIte] at hb
  subst hb
  exact ⟨rfl, rfl⟩

/-- Helper: the expression 1.f/float(n) - 1. is negative for n ≥ 2. -/
theorem switchCtorStep_neg (n : Nat) (h : 2 ≤ n) : switchCtorStep n < 0 := by
  unfold switchCtorStep
  have hn : (2 : ℚ) ≤ (n : ℚ) := by exact_mod_cast h
  have h1 : (1 : ℚ) / (n : ℚ) ≤ 1 / 2 := by
    apply one_div_le_one_div_of_le
    · norm_num
    · exact hn
  linarith

/-- Helper: truncation toward zero is the identity on natural numbers. -/
theorem rtrunc_natCast (k : Nat) : rtrunc (k : ℚ) = k := by
  simp [rtrunc]

/-- C4: IVSwitchControl::Draw issues exactly two fill-rectangle operations, in
order: first the background color over the whole mRECT, then the foreground
color over the state sub-rectangle padded inward by 10 — the sub-rectangle
taken horizontally when mDirection = kHorizontal and vertically when
mDirection = kVertical. -/
theorem C4_switch_draw_ops (c : IVSwitchControl) :
    (c.Draw).2.length = 2 ∧
    (c.Draw).2.head? = some (DrawOp.fillRect c.mBGColor c.mRECT) ∧
    (c.mDirection = EDirection.kHorizontal →
      (c.Draw).2[1]? = some (DrawOp.fillRect c.mFGColor
        (RectExpr.getPadded
          (RectExpr.subRectHorizontal c.mRECT c.mNumStates c.drawStateIdx) (-10)))) ∧
    (c.mDirection = EDirection.kVertical →
      (c.Draw).2[1]? = some (DrawOp.fillRect c.mFGColor
        (RectExpr.getPadded
          (RectExpr.subRectVertical c.mRECT c.mNumStates c.drawStateIdx) (-10)))) := by
  refine ⟨rfl, rfl, fun h => ?_, fun h => ?_⟩
  · simp [IVSwitchControl.Draw, h]
  · simp [IVSwitchControl.Draw, h]

/-- Witness for C4 on a concrete horizontal switch. -/
theorem C4_switch_draw_ops_witness :
    (exSwitchH.Draw).2.length = 2 ∧
    (exSwitchH.Draw).2[1]? = some (DrawOp.fillRect exSwitchH.mFGColor
      (RectExpr.getPadded
        (RectExpr.subRectHorizontal exSwitchH.mRECT exSwitchH.mNumStates
          exSwitchH.drawStateIdx) (-10))) :=
  ⟨(C4_switch_draw_ops exSwitchH).1, (C4_switch_draw_ops exSwitchH).2.2.1 rfl⟩

/-- C5: IBTextControl::Draw issues exactly one DrawBitmapedText operation,
passing the bitmap font, the control rectangle and exactly the string, char
width, char height, char offset, multi-line flag and vertical-centre flag
supplied at construction. -/
theorem C5_btext_draw_call (rect : RectExpr) (textBitmap : IBitmap) (text : IText)
    (str : String) (charWidth charHeight charOffset : Int) (multiLine vCenter : Bool)
    (bl : IBlend) :
    ((IBTextControl.construct rect textBitmap text str charWidth charHeight charOffset
        multiLine vCenter bl).Draw).2
      = [DrawOp.drawBitmapedText textBitmap rect text
          (IBTextControl.construct rect textBitmap text str charWidth charHeight charOffset
            multiLine vCenter bl).mBlend
          str vCenter multiLine charWidth charHeight charOffset] := rfl

/-- C6: the Draw methods of IVSwitchControl and IBTextControl only emit drawing
operations; the control itself — every field — is returned unchanged. -/
theorem C6_draw_preserves_fields (c : IVSwitchControl) (t : IBTextControl) :
    (c.Draw).1 = c ∧ (t.Draw).1 = t :=
  ⟨rfl, rfl⟩

/-- C7: a control stores exactly the one parameter index given at construction;
OnMouseDrag, OnMouseWheel and Draw never change that binding; OnMouseDown
changes only the value and the dirty flag — the parameter index, bounds
rectangle, state count and action-callback binding are unchanged — and invokes
the action callback exactly when one was supplied. -/
theorem C7_param_binding_frame (plugGetRange : Int → Nat) (rect : RectExpr)
    (paramIdx : Int) (actionFunc : Bool) (numStates : Nat) (dir : EDirection)
    (gearing : ℚ) (k : IKnobControlBase) (b b' : IButtonControlBase)
    (c : IVSwitchControl) (t : IBTextControl) (x y dX dY d : ℚ) (m : IMouseMod)
    (hb : (b.OnMouseDown x y m).1 = some b') :
    (IButtonControlBase.construct plugGetRange rect paramIdx actionFunc numStates).mParamIdx
      = paramIdx ∧
    (IKnobControlBase.construct rect paramIdx dir gearing).mParamIdx = paramIdx ∧
    (k.OnMouseDrag x y dX dY m).mParamIdx = k.mParamIdx ∧
    (k.OnMouseWheel x y m d).mParamIdx = k.mParamIdx ∧
    (c.Draw).1.mParamIdx = c.mParamIdx ∧
    (t.Draw).1.mParamIdx = t.mParamIdx ∧
    b'.mParamIdx = b.mParamIdx ∧
    b'.mRECT = b.mRECT ∧
    b'.mNumStates = b.mNumStates ∧
    b'.mActionFunc = b.mActionFunc ∧
    b'.mDirty = true ∧
    (b.OnMouseDown x y m).2 = b.mActionFunc := by
  simp only [IButtonControlBase.OnMouseDown] at hb
  obtain ⟨v, -, rfl⟩ := Option.map_eq_some'.mp hb
  exact ⟨rfl, rfl, rfl, rfl, rfl, rfl, rfl, rfl, rfl, rfl, rfl, rfl⟩

/-- C8: with mNumStates = 2, OnMouseDown maps any value into {0, 1} — 0 when
the value was nonzero and 1 when it was zero — and on {0, 1} two successive
OnMouseDown calls restore the original value. -/
theorem C8_toggle_involution (b : IButtonControlBase) (x y : ℚ) (m : IMouseMod)
    (h2 : b.mNumStates = 2) :
    (∀ b', (b.OnMouseDown x y m).1 = some b' →
      b'.mValue = (if b.mValue = 0 then 1 else 0)) ∧
    ((b.mValue = 0 ∨ b.mValue = 1) →
      ∀ b' b'', (b.OnMouseDown x y m).1 = some b' →
        (b'.OnMouseDown x y m).1 = some b'' → b''.mValue = b.mValue) := by
  constructor
  · intro b' hb
    exact (IButtonControlBase.toggle_value_eq b x y m b' h2 hb).1
  · intro hv b' b'' hb hb'
    obtain ⟨hval, hns⟩ := IButtonControlBase.toggle_value_eq b x y m b' h2 hb
    obtain ⟨hval', -⟩ := IButtonControlBase.toggle_value_eq b' x y m b'' hns hb'
    rcases hv with h0 | h1
    · rw [hval', hval, h0]
      norm_num
    · rw [hval', hval, h1]
      norm_num

/-- C10: the mStep stored by the IVSwitchControl constructor equals the
per-click step that IButtonControlBase::OnMouseDown computes from the same
mNumStates (both are 1.f/float(mNumStates) - 1.), and the state index Draw
derives from mValue / mStep counts whole such increments: at a value of k
increments it is exactly k. -/
theorem C10_step_refinement (plugGetRange : Int → Nat) (rect : RectExpr)
    (paramIdx : Int) (actionFunc : Bool) (fgColor bgColor : IColor)
    (numStates : Nat) (dir : EDirection) (k : Nat)
    (h2 : 2 ≤ (IVSwitchControl.construct plugGetRange rect paramIdx actionFunc
            fgColor bgColor numStates dir).mNumStates) :
    (IVSwitchControl.construct plugGetRange rect paramIdx actionFunc fgColor bgColor
        numStates dir).mStep
      = buttonMouseDownStep
          (IVSwitchControl.construct plugGetRange rect paramIdx actionFunc fgColor bgColor
            numStates dir).mNumStates ∧
    IVSwitchControl.drawStateIdx
        { IVSwitchControl.construct plugGetRange rect paramIdx actionFunc fgColor bgColor
            numStates dir with
          mValue := (k : ℚ) * (IVSwitchControl.construct plugGetRange rect paramIdx
            actionFunc fgColor bgColor numStates dir).mStep }
      = k := by
  have hstep : (IVSwitchControl.construct plugGetRange rect paramIdx actionFunc fgColor
      bgColor numStates dir).mStep
      = switchCtorStep (IVSwitchControl.construct plugGetRange rect paramIdx actionFunc
          fgColor bgColor numStates dir).mNumStates := rfl
  have hne : (IVSwitchControl.construct plugGetRange rect paramIdx actionFunc fgColor
      bgColor numStates dir).mStep ≠ 0 := by
    rw [hstep]
    exact ne_of_lt (switchCtorStep_neg _ h2)
  refine ⟨rfl, ?_⟩
  show rtrunc (((k : ℚ) * (IVSwitchControl.construct plugGetRange rect paramIdx actionFunc
      fgColor bgColor numStates dir).mStep)
      / (IVSwitchControl.construct plugGetRange rect paramIdx actionFunc fgColor bgColor
          numStates dir).mStep) = k
  rw [mul_div_cancel_right₀ _ hne, rtrunc_natCast]

/-- Witness for C7 on the concrete two-state button with an action callback. -/
theorem C7_param_binding_frame_witness :
    (exButton2.OnMouseDown 0 0 exMouseMod).1 = some exButton2Tog ∧
    exButton2Tog.mParamIdx = exButton2.mParamIdx ∧
    exButton2Tog.mRECT = exButton2.mRECT ∧
    exButton2Tog.mNumStates = exButton2.mNumStates ∧
    (exButton2.OnMouseDown 0 0 exMouseMod).2 = exButton2.mActionFunc := by
  have hb : (exButton2.OnMouseDown 0 0 exMouseMod).1 = some exButton2Tog := by
    norm_num [exButton2, exButton2Tog, IButtonControlBase.construct, IControl.construct,
      kNoParameter, IButtonControlBase.OnMouseDown, OnMouseDownValue]
  have H := C7_param_binding_frame (fun _ => 0) (RectExpr.rect 0 0 50 20) kNoParameter
    true 2 EDirection.kVertical 1 exKnob exButton2 exButton2Tog exSwitchOn exBText
    0 0 0 0 0 exMouseMod hb
  exact ⟨hb, H.2.2.2.2.2.2.1, H.2.2.2.2.2.2.2.1, H.2.2.2.2.2.2.2.2.1,
    H.2.2.2.2.2.2.2.2.2.2.2⟩

/-- Witness for C8: the concrete two-state button at value 0 toggles to 1. -/
theorem C8_toggle_involution_witness :
    exButton2.mNumStates = 2 ∧
    exButton2Tog.mValue = (if exButton2.mValue = 0 then 1 else 0) := by
  have h2 : exButton2.mNumStates = 2 := by
    norm_num [exButton2, IButtonControlBase.construct, IControl.construct, kNoParameter]
  have hb : (exButton2.OnMouseDown 0 0 exMouseMod).1 = some exButton2Tog := by
    norm_num [exButton2, exButton2Tog, IButtonControlBase.construct, IControl.construct,
      kNoParameter, IButtonControlBase.OnMouseDown, OnMouseDownValue]
  exact ⟨h2, (C8_toggle_involution exButton2 0 0 exMouseMod h2).1 exButton2Tog hb⟩

/-- Witness for C10 on the concrete horizontal switch (bound parameter of
range 2, hence mNumStates = 3) at k = 2 whole increments. -/
theorem C10_step_refinement_witness :
    2 ≤ exSwitchH.mNumStates ∧
    exSwitchH.mStep = buttonMouseDownStep exSwitchH.mNumStates ∧
    IVSwitchControl.drawStateIdx { exSwitchH with mValue := (2 : ℚ) * exSwitchH.mStep }
      = 2 := by
  have h2 : 2 ≤ (IVSwitchControl.construct (fun _ => 2) (RectExpr.rect 0 0 90 30) 5 true
      { A := 255, R := 10, G := 20, B := 30 } { A := 255, R := 1, G := 2, B := 3 }
      7 EDirection.kHorizontal).mNumStates := by
    norm_num [IVSwitchControl.construct, IButtonControlBase.construct, IControl.construct]
  have H := C10_step_refinement (fun _ => 2) (RectExpr.rect 0 0 90 30) 5 true
    { A := 255, R := 10, G := 20, B := 30 } { A := 255, R := 1, G := 2, B := 3 }
    7 EDirection.kHorizontal 2 h2
  exact ⟨h2, H.1, H.2⟩
